import Mathlib

/-!
# GenGIS map properties dialog

A shallow embedding of `src/gui/MapPropertiesDlg.cpp`: the elevation / level-of-detail
scaling, the cartogram page (`InitCartogram`, `OnCartogram`) and the colour map page
(`InitColourMap`, the change handlers, `ApplyColourMap`).

Conventions of the embedding:

* `float` arithmetic is taken over the exact rationals `ℚ`;
* `int(x)` on a floating-point value is the C++ conversion, truncation toward zero
  (the result is assumed to be representable as an `int`);
* `int` arithmetic is taken over `ℤ`: slider positions, combo selections and layer counts
  stay far away from the limits of a machine `int`;
* a handler that calls methods of a collaborator class defined outside
  `MapPropertiesDlg.cpp` is embedded as the sequence of calls it makes.
-/

namespace GenGIS

/-! ## Elevation / level-of-detail scaling -/

/-- The constant `MAX_ELEVATION` of `MapPropertiesDlg.cpp`. -/
def MAX_ELEVATION : ℤ := 10000

/-- The C++ conversion `int(x)` of a floating-point value: the fractional part is
discarded, i.e. the value is truncated toward zero. -/
def toInt (x : ℚ) : ℤ :=
  if 0 ≤ x then ⌊x⌋ else ⌈x⌉

/-- `MapPropertiesDlg::ScaleElevation(float elevation)`; `max` is the value of
`GetMaxElevationGridSpace()`. -/
def ScaleElevationF (max elevation : ℚ) : ℤ :=
  let normElevation : ℚ := (max - elevation) / max
  toInt ((MAX_ELEVATION : ℚ) * normElevation)

/-- `MapPropertiesDlg::ScaleElevation(int elevation)`; `max` is the value of
`GetMaxElevationGridSpace()`. -/
def ScaleElevationI (max : ℚ) (elevation : ℤ) : ℚ :=
  let normElevation : ℚ := ((MAX_ELEVATION - elevation : ℤ) : ℚ) / (MAX_ELEVATION : ℚ)
  normElevation * max

/-- The loop `for (int i = 0; i < max; i++) indexes[i] = i;` of `OnCartogram`:
`remaining` iterations are left, `i` is the loop counter. -/
def fillLoop : (remaining : ℕ) → (i : ℕ) → (indexes : List ℤ) → List ℤ
  | 0, _, indexes => indexes
  | remaining + 1, i, indexes => fillLoop remaining (i + 1) (indexes.set i (i : ℤ))

/-- The block `int *indexes = new int[max]; for (...) indexes[i] = i;`: a fresh array of
`max` cells, filled by the loop. -/
def fillIndexes (max : ℕ) : List ℤ :=
  fillLoop max 0 (List.replicate max 0)

/-- The widgets read by `OnCartogram`. -/
structure CartogramWidgets where
  /-- Value of `m_spinAreaFudge->GetValue()`. -/
  m_spinAreaFudge : ℤ
  /-- Value of `m_spinValueFudge->GetValue()`. -/
  m_spinValueFudge : ℤ
  /-- Value of `m_cboSelectMethod->GetStringSelection()`. -/
  m_cboSelectMethod : String
  /-- Value of `m_cboSelectLocation->GetSelection()`. -/
  m_cboSelectLocation : ℤ
  /-- Value of `m_cboSelectVectorMap->GetSelection()`. -/
  m_cboSelectVectorMap : ℤ
  deriving DecidableEq, Repr

/-- A call made on `m_cartogram`. An `(int*, int)` argument pair is recorded as the list of
the cells it points to, together with the count. -/
inductive CartogramCall where
  | SetAreaFudge (value : ℤ)
  | SetValueFudge (value : ℤ)
  | SetMeasureLabel (label : String)
  | SetLocationSetLayer (indexes : List ℤ) (count : ℤ)
  | SetVectorMap (indexes : List ℤ) (count : ℤ)
  | MakeCartogram
  deriving DecidableEq, Repr

/-- `MapPropertiesDlg::OnCartogram`: the calls it makes on the cartogram engine, in order.
`numLocationSetLayers` and `numVectorMapLayers` are the values of
`GetNumLocationSetLayers()` and `GetNumVectorMapLayers()`. -/
def OnCartogram (w : CartogramWidgets) (numLocationSetLayers numVectorMapLayers : ℕ) :
    List CartogramCall :=
  let head := [CartogramCall.SetAreaFudge w.m_spinAreaFudge,
    CartogramCall.SetValueFudge w.m_spinValueFudge,
    CartogramCall.SetMeasureLabel w.m_cboSelectMethod]
  let locationSetIndex : ℤ := w.m_cboSelectLocation
  let max : ℕ := numLocationSetLayers
  let loc :=
    if locationSetIndex = (max : ℤ) then
      [CartogramCall.SetLocationSetLayer (fillIndexes max) max]
    else
      [CartogramCall.SetLocationSetLayer [locationSetIndex] 1]
  let vectorMapIndex : ℤ := w.m_cboSelectVectorMap - 1
  let max : ℕ := numVectorMapLayers
  let vec :=
    if vectorMapIndex = (max : ℤ) then
      [CartogramCall.SetVectorMap (fillIndexes max) max]
    else if vectorMapIndex ≥ 0 then
      [CartogramCall.SetVectorMap [vectorMapIndex] 1]
    else
      []
  head ++ loc ++ vec ++ [CartogramCall.MakeCartogram]

/-- The index lists of the `SetVectorMap` calls in a call sequence. -/
def vectorMapArgs : List CartogramCall → List (List ℤ)
  | [] => []
  | CartogramCall.SetVectorMap indexes _ :: cs => indexes :: vectorMapArgs cs
  | _ :: cs => vectorMapArgs cs

/-- Modelled from the spec: the configuration held by the cartogram engine (class
`Cartogram`, defined outside `MapPropertiesDlg.cpp`): area fudge, value fudge, measure
label, selected location-set layer indices, selected vector-map layer indices. -/
structure Cartogram where
  areaFudge : ℤ
  valueFudge : ℤ
  measureLabel : String
  locationSetLayers : List ℤ
  vectorMaps : List ℤ
  deriving DecidableEq, Repr

/-- Modelled from the spec: the effect of one call on the engine configuration (the
methods of `Cartogram` are defined outside `MapPropertiesDlg.cpp`). Each setter stores
what it is given ("pushes ... into the engine"); `MakeCartogram` computes from the
configuration and leaves it as it is. -/
def Cartogram.call (c : Cartogram) : CartogramCall → Cartogram
  | CartogramCall.SetAreaFudge v => { c with areaFudge := v }
  | CartogramCall.SetValueFudge v => { c with valueFudge := v }
  | CartogramCall.SetMeasureLabel s => { c with measureLabel := s }
  | CartogramCall.SetLocationSetLayer indexes _ => { c with locationSetLayers := indexes }
  | CartogramCall.SetVectorMap indexes _ => { c with vectorMaps := indexes }
  | CartogramCall.MakeCartogram => c

/-- The engine configuration after a sequence of calls. -/
def Cartogram.calls (c : Cartogram) (cs : List CartogramCall) : Cartogram :=
  cs.foldl Cartogram.call c

/-- The engine configuration after one run of `OnCartogram` on the engine `c`. -/
def OnCartogramEngine (w : CartogramWidgets) (numLocationSetLayers numVectorMapLayers : ℕ)
    (c : Cartogram) : Cartogram :=
  c.calls (OnCartogram w numLocationSetLayers numVectorMapLayers)

/-! ## Cartogram page: `InitCartogram` -/

/-- The standard algorithm `std::set_intersection` on two ranges, with `operator<` as the
comparison: the smaller head is skipped, equal heads are copied once to the output. -/
def set_intersection : List String → List String → List String
  | [], _ => []
  | _ :: _, [] => []
  | a :: as, b :: bs =>
    if a < b then set_intersection as (b :: bs)
    else if b < a then set_intersection (a :: as) bs
    else a :: set_intersection as bs
termination_by l₁ l₂ => l₁.length + l₂.length

/-- The standard algorithm `std::sort` with `operator<`: the ascending rearrangement of the
range. -/
def sort (l : List String) : List String :=
  l.insertionSort (· ≤ ·)

/-- The loop of `InitCartogram` that sets up the measure selection, run over the numeric
metadata fields of the location-set layers still to be visited. `middleMan` is empty at
the start of every pass, so after `set_intersection` it holds exactly the intersection. -/
def measureLoop : (firstPass : Bool) → (fields : List String) →
    (layers : List (List String)) → List String
  | _, fields, [] => fields
  | true, _, layerFields :: rest => measureLoop false layerFields rest
  | false, fields, layerFields :: rest =>
    let middleMan := set_intersection (sort fields) (sort layerFields)
    measureLoop false middleMan rest

/-- The combo boxes filled by `InitCartogram`. -/
structure CartogramCombos where
  /-- Items of `m_cboSelectLocation`. -/
  selectLocation : List String
  /-- Items of `m_cboSelectVectorMap`. -/
  selectVectorMap : List String
  /-- Items of `m_cboSelectMethod`. -/
  selectMethod : List String
  deriving DecidableEq, Repr

/-- `MapPropertiesDlg::InitCartogram`: the items appended to the three combo boxes.
`locationSetNames` and `vectorMapNames` are the layer names in layer order,
`numericFields` the result of `GetNumericMetadataFields()` for each location-set layer. -/
def InitCartogram (locationSetNames vectorMapNames : List String)
    (numericFields : List (List String)) : CartogramCombos :=
  { selectLocation := locationSetNames ++ ["All"]
    selectVectorMap := "None" :: (vectorMapNames ++ ["All"])
    selectMethod := "Sequence Count" :: measureLoop true [] numericFields }

/-! ## Colour map page -/

/-- The interpolation modes `MapTexture::INTERPOLATE` named in the dialog. -/
inductive INTERPOLATE where
  | DISCRETE
  | LINEARLY
  | COLOUR_GRID
  deriving DecidableEq, Repr

/-- What the dialog reads from the texture and the map controller. `CM` is the type of
colour maps; `colourMap = none` stands for a null `GetColourMap()`. -/
structure MapTexture (CM : Type) where
  colourMap : Option CM
  numColours : ℤ
  interpolation : INTERPOLATE
  intervals : List ℚ
  /-- Value of `GetMapController()->GetMaxElevation()`. -/
  maxElevation : ℚ
  /-- Value of `GetMapController()->GetMinElevation()`. -/
  minElevation : ℚ

/-- The operations of `TerrainMapWidget` used by the dialog. The widget is defined
outside `MapPropertiesDlg.cpp`, so its operations are parameters; `W` is the state of the widget
together with the controls it manages. The widget also holds a pointer to
`m_bColourMapChanged`; every handler below assigns the flag after its last widget
operation, so the flag a handler leaves behind does not depend on the widget. -/
structure TerrainMapWidget (W CM : Type) where
  SetColourMapFrom : W → CM → W
  PopulateColourMapComboBox : W → W
  SetIntervalData : W → List ℚ → W
  SetEntries : W → ℤ → ℚ → ℚ → W
  SetColourMap : W → W
  EvenlySpaceEntries : W → ℚ → ℚ → W
  GetEntries : W → List ℚ
  GetColourMap : W → CM

/-- The part of the dialog state the colour map page works on. -/
structure MapPropertiesDlg (W : Type) where
  m_terrainMapWidget : W
  /-- Value of `m_spinNumEntries`. -/
  m_spinNumEntries : ℤ
  /-- Value of `m_cboInterpolation`. -/
  m_cboInterpolation : String
  cboColourMapEnabled : Bool
  cboInterpolationEnabled : Bool
  spinNumEntriesEnabled : Bool
  m_bColourMapChanged : Bool

/-- One call `mapTexture->SetColourMap(colourMap, entries, interpolate, this)`.
`interpolate = none` records that the local variable `interpolate` was passed without
having been assigned. -/
structure SetColourMapCall (CM : Type) where
  colourMap : CM
  entries : List ℚ
  interpolate : Option INTERPOLATE

/-- `MapPropertiesDlg::OnColourMapChange`. -/
def OnColourMapChange {W CM : Type} (ops : TerrainMapWidget W CM)
    (mapTexture : MapTexture CM) (d : MapPropertiesDlg W) : MapPropertiesDlg W :=
  if mapTexture.colourMap.isSome then
    { d with
      m_terrainMapWidget := ops.SetColourMap d.m_terrainMapWidget
      m_bColourMapChanged := true }
  else d

/-- `MapPropertiesDlg::OnNumEntriesChange`. -/
def OnNumEntriesChange {W CM : Type} (ops : TerrainMapWidget W CM)
    (mapTexture : MapTexture CM) (d : MapPropertiesDlg W) : MapPropertiesDlg W :=
  if mapTexture.colourMap.isSome then
    let d₁ := { d with
      m_terrainMapWidget := ops.SetEntries d.m_terrainMapWidget d.m_spinNumEntries
        mapTexture.maxElevation mapTexture.minElevation }
    let d₂ := { d₁ with m_bColourMapChanged := true }
    OnColourMapChange ops mapTexture d₂
  else d

/-- `MapPropertiesDlg::OnInterpolationChange`. -/
def OnInterpolationChange {W CM : Type} (ops : TerrainMapWidget W CM)
    (mapTexture : MapTexture CM) (d : MapPropertiesDlg W) : MapPropertiesDlg W :=
  OnColourMapChange ops mapTexture { d with m_bColourMapChanged := true }

/-- `MapPropertiesDlg::OnEvenlySpace`. -/
def OnEvenlySpace {W CM : Type} (ops : TerrainMapWidget W CM)
    (mapTexture : MapTexture CM) (d : MapPropertiesDlg W) : MapPropertiesDlg W :=
  if mapTexture.colourMap.isSome then
    let d₁ := { d with
      m_terrainMapWidget := ops.EvenlySpaceEntries d.m_terrainMapWidget
        mapTexture.maxElevation mapTexture.minElevation }
    let d₂ := { d₁ with m_bColourMapChanged := true }
    OnColourMapChange ops mapTexture d₂
  else d

/-- `MapPropertiesDlg::InitColourMap`. -/
def InitColourMap {W CM : Type} (ops : TerrainMapWidget W CM)
    (mapTexture : MapTexture CM) (d : MapPropertiesDlg W) : MapPropertiesDlg W :=
  let d' :=
    match mapTexture.colourMap with
    | some cm =>
      let w₁ := ops.PopulateColourMapComboBox (ops.SetColourMapFrom d.m_terrainMapWidget cm)
      let d₁ := { d with m_terrainMapWidget := w₁, m_spinNumEntries := mapTexture.numColours }
      let d₂ :=
        if mapTexture.interpolation = INTERPOLATE.DISCRETE then
          { d₁ with m_cboInterpolation := "Discrete" }
        else if mapTexture.interpolation = INTERPOLATE.LINEARLY then
          { d₁ with m_cboInterpolation := "Linearly" }
        else d₁
      let d₃ := { d₂ with
        m_terrainMapWidget := ops.SetIntervalData d₂.m_terrainMapWidget mapTexture.intervals }
      let d₄ := OnNumEntriesChange ops mapTexture d₃
      if mapTexture.interpolation = INTERPOLATE.COLOUR_GRID then
        { d₄ with
          cboColourMapEnabled := false
          cboInterpolationEnabled := false
          spinNumEntriesEnabled := false }
      else d₄
    | none => d
  { d' with m_bColourMapChanged := false }

/-- `MapPropertiesDlg::ApplyColourMap`: the new dialog state and the `SetColourMap` calls
made on the texture. -/
def ApplyColourMap {W CM : Type} (ops : TerrainMapWidget W CM)
    (mapTexture : MapTexture CM) (d : MapPropertiesDlg W) :
    MapPropertiesDlg W × List (SetColourMapCall CM) :=
  let commits : List (SetColourMapCall CM) :=
    if mapTexture.colourMap.isSome && d.m_bColourMapChanged then
      let interpolate : Option INTERPOLATE :=
        if d.m_cboInterpolation = "Discrete" then some INTERPOLATE.DISCRETE
        else if d.m_cboInterpolation = "Linearly" then some INTERPOLATE.LINEARLY
        else none
      let entries := ops.GetEntries d.m_terrainMapWidget
      [{ colourMap := ops.GetColourMap d.m_terrainMapWidget
         entries := entries
         interpolate := interpolate }]
    else []
  ({ d with m_bColourMapChanged := false }, commits)

/-- `MapPropertiesDlg::Apply`, as far as the colour map is concerned: its other statements
write the layer name, description and authors, the wireframe flag, the vertical
exaggeration, the transparency and the level of detail, and none of them reads or writes
the colour map state. -/
def Apply {W CM : Type} (ops : TerrainMapWidget W CM)
    (mapTexture : MapTexture CM) (d : MapPropertiesDlg W) :
    MapPropertiesDlg W × List (SetColourMapCall CM) :=
  ApplyColourMap ops mapTexture d

/-- The texture of the colour-grid scenario: a colour map `cm` is present and the
interpolation mode is `COLOUR_GRID`. -/
def gridTexture {CM : Type} (cm : CM) (numColours : ℤ) (intervals : List ℚ)
    (maxElevation minElevation : ℚ) : MapTexture CM :=
  { colourMap := some cm
    numColours := numColours
    interpolation := INTERPOLATE.COLOUR_GRID
    intervals := intervals
    maxElevation := maxElevation
    minElevation := minElevation }

/-! ## Properties of the elevation scaling -/

theorem toInt_of_nonneg {x : ℚ} (h : 0 ≤ x) : toInt x = ⌊x⌋ := by
  simp [toInt, h]

theorem toInt_of_neg {x : ℚ} (h : x < 0) : toInt x = ⌈x⌉ := by
  simp [toInt, not_le.mpr h]

theorem toInt_mono {x y : ℚ} (h : x ≤ y) : toInt x ≤ toInt y := by
  by_cases hx : 0 ≤ x
  · rw [toInt_of_nonneg hx, toInt_of_nonneg (hx.trans h)]
    exact Int.floor_le_floor h
  · have hx' : x < 0 := not_le.mp hx
    rw [toInt_of_neg hx']
    by_cases hy : 0 ≤ y
    · rw [toInt_of_nonneg hy]
      have h1 : ⌈x⌉ ≤ 0 := Int.ceil_le.mpr (by exact_mod_cast hx'.le)
      have h2 : (0 : ℤ) ≤ ⌊y⌋ := Int.floor_nonneg.mpr hy
      exact h1.trans h2
    · rw [toInt_of_neg (not_le.mp hy)]
      exact Int.ceil_le_ceil h

theorem scaled_nonneg {max elevation : ℚ} (hmax : 0 < max) (he : elevation ≤ max) :
    0 ≤ (MAX_ELEVATION : ℚ) * ((max - elevation) / max) := by
  have : 0 ≤ (max - elevation) / max := div_nonneg (sub_nonneg.mpr he) hmax.le
  simp only [MAX_ELEVATION]
  positivity

theorem ScaleElevationF_eq_floor {max elevation : ℚ} (hmax : 0 < max)
    (he : elevation ≤ max) :
    ScaleElevationF max elevation = ⌊(10000 : ℚ) * ((max - elevation) / max)⌋ := by
  have h := scaled_nonneg hmax he
  unfold ScaleElevationF
  simp only []
  rw [toInt_of_nonneg h]
  simp [MAX_ELEVATION]

/-- Claim C3: for every slider value `s` and every `max`, `ScaleElevation(int)` returns
`((10000 - s) / 10000) * max`; slider value `10000` gives `0` and slider value `0` gives
`max`, e.g. `0` and `500` for `max = 500`. -/
theorem ScaleElevationI_formula (max : ℚ) (s : ℤ) :
    ScaleElevationI max s = (((10000 : ℚ) - s) / 10000) * max ∧
    ScaleElevationI max 10000 = 0 ∧ ScaleElevationI max 0 = max ∧
    ScaleElevationI 500 10000 = 0 ∧ ScaleElevationI 500 0 = 500 := by
  refine ⟨?_, ?_, ?_, ?_, ?_⟩ <;> simp [ScaleElevationI, MAX_ELEVATION]

/-- Claim C9: for every `max > 0`, the slider value computed by `ScaleElevation(float)`
for an elevation in `[0, max]` lies in `[0, 10000]`, and it is non-increasing in the
elevation. -/
theorem ScaleElevationF_range_antitone (max : ℚ) (hmax : 0 < max) :
    (∀ elevation : ℚ, 0 ≤ elevation → elevation ≤ max →
      0 ≤ ScaleElevationF max elevation ∧ ScaleElevationF max elevation ≤ 10000) ∧
    (∀ e₁ e₂ : ℚ, 0 ≤ e₁ → e₁ ≤ e₂ → e₂ ≤ max →
      ScaleElevationF max e₂ ≤ ScaleElevationF max e₁) := by
  constructor
  · intro e h0 h1
    rw [ScaleElevationF_eq_floor hmax h1]
    have hx := scaled_nonneg hmax h1
    simp only [MAX_ELEVATION] at hx
    push_cast at hx
    refine ⟨Int.floor_nonneg.mpr hx, ?_⟩
    have hle : (10000 : ℚ) * ((max - e) / max) ≤ 10000 := by
      have : (max - e) / max ≤ 1 := (div_le_one hmax).mpr (by linarith)
      linarith
    have := Int.floor_le_floor hle
    simpa using this
  · intro e₁ e₂ _ h12 _
    unfold ScaleElevationF
    simp only []
    apply toInt_mono
    have : (max - e₂) / max ≤ (max - e₁) / max :=
      div_le_div_of_nonneg_right (by linarith) hmax.le
    simp only [MAX_ELEVATION]
    push_cast
    linarith

/-- Witness for claim C9 at `max = 500` with the elevations `125` and `250`. -/
theorem ScaleElevationF_range_antitone_witness :
    (0 : ℚ) < 500 ∧
      (0 ≤ ScaleElevationF 500 125 ∧ ScaleElevationF 500 125 ≤ 10000) ∧
      ScaleElevationF 500 250 ≤ ScaleElevationF 500 125 :=
  ⟨by norm_num,
    (ScaleElevationF_range_antitone 500 (by norm_num)).1 125 (by norm_num) (by norm_num),
    (ScaleElevationF_range_antitone 500 (by norm_num)).2 125 250
      (by norm_num) (by norm_num) (by norm_num)⟩

/-! ## Properties of `OnCartogram` -/

/-- Claim C5, evaluated on the code: with one vector-map layer, a run of `OnCartogram` with
the vector-map combo on layer 0 followed by a run with the combo on "None" (selection 0).
The second run makes no `SetVectorMap` call, and the engine still holds the selection
`[0]` of the first run, not the empty selection. -/
theorem OnCartogram_none_keeps_selection :
    vectorMapArgs (OnCartogram ⟨5, 10, "Sequence Count", 0, 0⟩ 1 1) = [] ∧
    (OnCartogramEngine ⟨5, 10, "Sequence Count", 0, 0⟩ 1 1
      (OnCartogramEngine ⟨5, 10, "Sequence Count", 0, 1⟩ 1 1 ⟨0, 0, "", [], []⟩)).vectorMaps
      = [0] := by
  decide

theorem mem_set_intersection (x : String) : ∀ (l₁ l₂ : List String),
    l₁.Sorted (· ≤ ·) → l₂.Sorted (· ≤ ·) →
    (x ∈ set_intersection l₁ l₂ ↔ x ∈ l₁ ∧ x ∈ l₂) := by
  intro l₁ l₂
  induction l₁, l₂ using set_intersection.induct with
  | case1 l₂ => intro _ _; simp [set_intersection]
  | case2 a as => intro _ _; simp [set_intersection]
  | case3 a as b bs hab ih =>
    intro h₁ h₂
    rw [set_intersection, if_pos hab, ih h₁.of_cons h₂]
    have hb := List.rel_of_sorted_cons h₂
    constructor
    · rintro ⟨hx, hx'⟩
      exact ⟨List.mem_cons_of_mem _ hx, hx'⟩
    · rintro ⟨hx, hx'⟩
      refine ⟨?_, hx'⟩
      rcases List.mem_cons.mp hx with rfl | hx
      · exfalso
        rcases List.mem_cons.mp hx' with rfl | hx'
        · exact lt_irrefl _ hab
        · exact absurd (hb _ hx') (not_le.mpr hab)
      · exact hx
  | case4 a as b bs hab hba ih =>
    intro h₁ h₂
    rw [set_intersection, if_neg hab, if_pos hba, ih h₁ h₂.of_cons]
    have ha := List.rel_of_sorted_cons h₁
    constructor
    · rintro ⟨hx, hx'⟩
      exact ⟨hx, List.mem_cons_of_mem _ hx'⟩
    · rintro ⟨hx, hx'⟩
      refine ⟨hx, ?_⟩
      rcases List.mem_cons.mp hx' with rfl | hx'
      · exfalso
        rcases List.mem_cons.mp hx with rfl | hx
        · exact lt_irrefl _ hba
        · exact absurd (ha _ hx) (not_le.mpr hba)
      · exact hx'
  | case5 a as b bs hab hba ih =>
    intro h₁ h₂
    have hab' : a = b := le_antisymm (not_lt.mp hba) (not_lt.mp hab)
    subst hab'
    rw [set_intersection, if_neg hab, if_neg hab, List.mem_cons, ih h₁.of_cons h₂.of_cons]
    simp only [List.mem_cons]
    constructor
    · rintro (rfl | ⟨h, h'⟩)
      · exact ⟨Or.inl rfl, Or.inl rfl⟩
      · exact ⟨Or.inr h, Or.inr h'⟩
    · rintro ⟨h | h, h' | h'⟩
      · exact Or.inl h
      · exact Or.inl h
      · exact Or.inl h'
      · exact Or.inr ⟨h, h'⟩

theorem mem_sort (x : String) (l : List String) : x ∈ sort l ↔ x ∈ l :=
  (List.perm_insertionSort (· ≤ ·) l).mem_iff

theorem sorted_sort (l : List String) : (sort l).Sorted (· ≤ ·) :=
  List.sorted_insertionSort (· ≤ ·) l

theorem mem_measureLoop_false (x : String) : ∀ (layers : List (List String))
    (fields : List String),
    (x ∈ measureLoop false fields layers ↔ x ∈ fields ∧ ∀ l ∈ layers, x ∈ l) := by
  intro layers
  induction layers with
  | nil => intro fields; simp [measureLoop]
  | cons l ls ih =>
    intro fields
    rw [measureLoop]
    rw [ih, mem_set_intersection x _ _ (sorted_sort _) (sorted_sort _), mem_sort, mem_sort]
    simp [and_assoc]

/-- Claim C10: the measure list built by `InitCartogram` is just "Sequence Count" when
there is no location-set layer; for a non-empty list of layers it is "Sequence Count"
followed by a list of field names in which a name occurs if and only if it is a numeric
metadata field of every location-set layer. -/
theorem InitCartogram_measures (locationSetNames vectorMapNames : List String)
    (layerFields : List String) (rest : List (List String)) :
    (InitCartogram locationSetNames vectorMapNames []).selectMethod = ["Sequence Count"] ∧
    ∃ fields : List String,
      (InitCartogram locationSetNames vectorMapNames (layerFields :: rest)).selectMethod
        = "Sequence Count" :: fields ∧
      ∀ x : String, x ∈ fields ↔ ∀ l ∈ layerFields :: rest, x ∈ l := by
  refine ⟨rfl, measureLoop true [] (layerFields :: rest), rfl, ?_⟩
  intro x
  rw [measureLoop, mem_measureLoop_false]
  simp

/-! ## Properties of the colour map page -/

/-- Claim C6: `ApplyColourMap` calls `MapTexture::SetColourMap` if and only if the texture
has a colour map and `m_bColourMapChanged` is true on entry; it makes at most one call,
and that call passes the widget's colour map and entries; afterwards the flag is false,
so an `ApplyColourMap` that follows directly makes no call, whatever the texture. -/
theorem ApplyColourMap_commit {W CM : Type} (ops : TerrainMapWidget W CM)
    (mapTexture : MapTexture CM) (d : MapPropertiesDlg W) :
    ((ApplyColourMap ops mapTexture d).2 ≠ [] ↔
      (mapTexture.colourMap.isSome = true ∧ d.m_bColourMapChanged = true)) ∧
    (ApplyColourMap ops mapTexture d).2.length ≤ 1 ∧
    (∀ call ∈ (ApplyColourMap ops mapTexture d).2,
      call.colourMap = ops.GetColourMap d.m_terrainMapWidget ∧
      call.entries = ops.GetEntries d.m_terrainMapWidget) ∧
    (ApplyColourMap ops mapTexture d).1.m_bColourMapChanged = false ∧
    (∀ mapTexture₂ : MapTexture CM,
      (ApplyColourMap ops mapTexture₂ (ApplyColourMap ops mapTexture d).1).2 = []) := by
  by_cases h : (mapTexture.colourMap.isSome && d.m_bColourMapChanged) = true
  · refine ⟨?_, ?_, ?_, rfl, ?_⟩
    · simp only [ApplyColourMap, h, if_true]
      simpa using h
    · simp [ApplyColourMap, h]
    · simp [ApplyColourMap, h]
    · intro t
      simp [ApplyColourMap]
  · refine ⟨?_, ?_, ?_, rfl, ?_⟩
    · simp only [ApplyColourMap, h]
      simpa using h
    · simp [ApplyColourMap, h]
    · simp [ApplyColourMap, h]
    · intro t
      simp [ApplyColourMap]

/-- Claim C7, evaluated on the code: for a texture that has a colour map and is in mode
`COLOUR_GRID`, `InitColourMap` disables the colour map combo, the interpolation combo and
the entry count, and an `Apply` right after it makes no `SetColourMap` call; but
`InitColourMap`, `OnEvenlySpace`, `Apply` makes one `SetColourMap` call on that texture,
with the widget's colour map and entries. -/
theorem COLOUR_GRID_SetColourMap_called {W CM : Type} (ops : TerrainMapWidget W CM)
    (d : MapPropertiesDlg W) (cm : CM) (numColours : ℤ) (intervals : List ℚ)
    (maxElevation minElevation : ℚ) :
    (gridTexture cm numColours intervals maxElevation minElevation).interpolation
      = INTERPOLATE.COLOUR_GRID ∧
    (InitColourMap ops (gridTexture cm numColours intervals maxElevation minElevation)
      d).cboColourMapEnabled = false ∧
    (InitColourMap ops (gridTexture cm numColours intervals maxElevation minElevation)
      d).cboInterpolationEnabled = false ∧
    (InitColourMap ops (gridTexture cm numColours intervals maxElevation minElevation)
      d).spinNumEntriesEnabled = false ∧
    (Apply ops (gridTexture cm numColours intervals maxElevation minElevation)
      (InitColourMap ops (gridTexture cm numColours intervals maxElevation minElevation)
        d)).2 = [] ∧
    (Apply ops (gridTexture cm numColours intervals maxElevation minElevation)
      (OnEvenlySpace ops (gridTexture cm numColours intervals maxElevation minElevation)
        (InitColourMap ops (gridTexture cm numColours intervals maxElevation minElevation)
          d))).2.length = 1 := by
  refine ⟨rfl, ?_, ?_, ?_, ?_, ?_⟩ <;>
    simp [Apply, ApplyColourMap, OnEvenlySpace, OnColourMapChange, InitColourMap,
      gridTexture]

end GenGIS
